import Mathlib

/-!
# Verification of the sorkin movie-writer core

Shallow embedding of the sorkin repository (a Godot movie writer that
encodes RGBA frames to VP9/Opus in a WebM container) and proofs about it.
The embedding follows `src/conversion.rs`, `src/lib.rs`, `src/audio.rs`
and `src/settings.rs`; machine integers are modelled as `Nat`/`Int`
(Rust `u32`/`usize` division truncates, exactly as `Nat` division does),
and `f32` values produced by the audio sample conversion are modelled
exactly as rationals (see `f32ofInt` below).
-/

namespace Sorkin

/-- Rust `u32::div_ceil(self, rhs)`: `self / rhs` plus one when the
remainder is non-zero. -/
def divCeil (a b : ℕ) : ℕ :=
  a / b + if a % b = 0 then 0 else 1

/-! ## conversion.rs -/

/-- Rust `f64::round`: round half away from zero.  The embedding works in
`ℚ`; the arguments of `frame_to_pts` (frame index, fps, time-base ticks)
are small integers, so the `f64` arithmetic of the source is exact up to
the final rounding. -/
def rustRound (x : ℚ) : ℤ :=
  if 0 ≤ x then ⌊x + 1 / 2⌋ else -⌊-x + 1 / 2⌋

/-- `frame_to_pts` (conversion.rs lines 13-16): converts a frame index to
a presentation time stamp, `round(frame_idx / fps * ticks_per_second)`. -/
def frame_to_pts (frame_idx fps ticks_per_second : ℤ) : ℤ :=
  rustRound ((frame_idx : ℚ) / (fps : ℚ) * (ticks_per_second : ℚ))

/-- The work-group counts passed to `compute_list_dispatch` in
`ConversionContext::convert` (conversion.rs lines 185-190): the source
passes `self.width.div_ceil(16)` for BOTH the x and the y axis
(`height` is unused there). -/
def dispatchGroups (width height : ℕ) : ℕ × ℕ × ℕ :=
  (divCeil width 16, divCeil width 16, 1)

/-- The sizes (width, height) of the four single-channel plane textures
allocated in `ConversionContext::new` (conversion.rs lines 117-123):
y at full size, u and v at `width / 2`, `height / 2` (truncating `u32`
division), a at full size. -/
structure PlaneTexDims where
  y : ℕ × ℕ
  u : ℕ × ℕ
  v : ℕ × ℕ
  a : ℕ × ℕ
deriving DecidableEq, Repr

/-- Plane texture allocation of `ConversionContext::new` for the
`YUVA420P | YUV420P` arm. -/
def conversionTexDims (width height : ℕ) : PlaneTexDims :=
  { y := (width, height)
    u := (width / 2, height / 2)
    v := (width / 2, height / 2)
    a := (width, height) }

end Sorkin

namespace Sorkin

/-! ## audio.rs constants and the audio PTS -/

/-- `OPUS_SAMPLE_RATE` (audio.rs line 15). -/
def OPUS_SAMPLE_RATE : ℕ := 48000

/-- `OPUS_FRAME_SIZE` (audio.rs line 16): samples per channel per Opus
frame. -/
def OPUS_FRAME_SIZE : ℕ := 960

/-- `STEREO_CHANNELS` (audio.rs line 17). -/
def STEREO_CHANNELS : ℕ := 2

/-- The PTS assigned in `OpusEncoder::encode_audio_data` (audio.rs line
113): `self.frame_count * self.frame_size`. -/
def audioPts (frame_count frame_size : ℕ) : ℕ := frame_count * frame_size

/-! ## The audio framing loop of SorkinWriter

`write_frame` (lib.rs lines 193-210) appends incoming converted samples
to `self.audio_buffer` and then, `while audio_buffer.len() >=
opus_frame_size_total`, drains the first `opus_frame_size_total` samples
as one codec frame.  The loop is modelled with explicit fuel (one unit
per iteration; `buf.length` units always suffice because each iteration
removes `fsz ≥ 1` samples). -/

/-- One run of the `while audio_buffer.len() >= fsz` drain loop: emits the
frames drained (in order) and the remaining buffer. -/
def drainLoop (fsz : ℕ) : ℕ → List ℚ → List (List ℚ) × List ℚ
  | 0, buf => ([], buf)
  | fuel + 1, buf =>
    if fsz ≤ buf.length then
      let r := drainLoop fsz fuel (buf.drop fsz)
      (buf.take fsz :: r.1, r.2)
    else ([], buf)

/-- The drain loop with enough fuel to terminate. -/
def drainFrames (fsz : ℕ) (buf : List ℚ) : List (List ℚ) × List ℚ :=
  drainLoop fsz buf.length buf

/-- The per-tick audio framing of `write_frame`: extend the buffer with
the pushed samples, then drain all complete frames.  `framerRun` folds
this over a whole session's pushes, starting from the empty buffer. -/
def framerStep (fsz : ℕ) (acc : List (List ℚ) × List ℚ) (push : List ℚ) :
    List (List ℚ) × List ℚ :=
  let r := drainFrames fsz (acc.2 ++ push)
  (acc.1 ++ r.1, r.2)

def framerRun (fsz : ℕ) (pushes : List (List ℚ)) : List (List ℚ) × List ℚ :=
  pushes.foldl (framerStep fsz) ([], [])

/-- End-of-stream audio handling in `write_end` (lib.rs lines 227-248):
if audio is enabled and the buffer is non-empty, a buffer shorter than
one full frame is resized (zero-padded) to exactly one frame, and then
all complete frames are drained and encoded. -/
def writeEndAudioFrames (enable_audio : Bool) (fsz : ℕ) (buf : List ℚ) :
    List (List ℚ) :=
  if enable_audio && !buf.isEmpty then
    let buf2 := if buf.length < fsz
      then buf ++ List.replicate (fsz - buf.length) 0
      else buf
    (drainFrames fsz buf2).1
  else []

/-! ## The int32-to-float audio sample conversion

`write_frame` (lib.rs lines 181-191) converts each incoming `i32` sample
with `if sample == i32::MIN { -1.0f32 } else { sample as f32 / i32::MAX
as f32 }`.  The `f32` arithmetic is modelled exactly: `n as f32` rounds
the integer to 24 significant bits with ties to even (`f32ofInt`), and
the division by `i32::MAX as f32` (which is the power of two `2^31`,
since `2^31 - 1` rounds up to `2^31` in `f32`) is an exact scaling in
binary floating point, so the result is the rational `f32ofInt n / 2^31`
with no further rounding. -/

/-- Round `m` to the nearest multiple of `u`, ties to the even multiple
(IEEE round-to-nearest-even on the quotient). -/
def roundTiesEven (m u : ℕ) : ℕ :=
  let q := m / u
  let r := m % u
  if 2 * r < u then q * u
  else if u < 2 * r then (q + 1) * u
  else if q % 2 = 0 then q * u else (q + 1) * u

/-- Number of bits of `m` (`0` for `0`), with fuel 64 (enough for every
value the embedding meets). -/
def bitLenAux : ℕ → ℕ → ℕ
  | 0, _ => 0
  | fuel + 1, m => if m = 0 then 0 else bitLenAux fuel (m / 2) + 1

def bitLen (m : ℕ) : ℕ := bitLenAux 64 m

/-- Exponent of the unit in the last place of the `f32` nearest `m`:
`0` while `m` fits in the 24-bit significand, `bitLen m - 24` beyond. -/
def f32UlpExp (m : ℕ) : ℕ := bitLen m - 24

/-- The value of `(m : u32) as f32` (round to nearest, ties to even),
as a natural number; exact for `m ≤ 2^24`, rounded to a multiple of the
ulp beyond. -/
def f32ofNat (m : ℕ) : ℕ := roundTiesEven m (2 ^ f32UlpExp m)

/-- The value of `(n : i32) as f32` as an integer. -/
def f32ofInt (n : ℤ) : ℤ :=
  if 0 ≤ n then (f32ofNat n.toNat : ℤ) else -(f32ofNat (-n).toNat : ℤ)

def I32_MIN : ℤ := -(2 ^ 31)
def I32_MAX : ℤ := 2 ^ 31 - 1

/-- The sample conversion of `write_frame`: the value (as an exact
rational) of `if sample == i32::MIN { -1.0f32 } else { sample as f32 /
i32::MAX as f32 }`. -/
def sampleToF32 (sample : ℤ) : ℚ :=
  if sample = I32_MIN then -1
  else (f32ofInt sample : ℚ) / (f32ofInt I32_MAX : ℚ)

/-! ## settings.rs -/

inductive Quality
  | Realtime
  | Good
  | Best
deriving DecidableEq, Repr

structure EncoderConfig where
  thread_count : ℕ
  quality : Quality
  alpha_channel : Bool
  enable_audio : Bool
deriving DecidableEq, Repr

/-! ## VP9Encoder::finish (lib.rs lines 429-458)

The body is a sequence of fallible steps; each step's success is an
input of the model (the ffmpeg results are opaque to the embedding) and
the model mirrors the source's control flow exactly:
`self.encoder.send_eof()?` and `self.receive_and_write_video_packets()?`
propagate immediately; a failing `audio_encoder.finish()` is only logged
(the `Err(e)` match arm) and execution continues; a failing
`packet.write_interleaved` for a drained audio packet propagates with
`?`; `write_trailer` runs last. -/

structure FinishEnv where
  /-- `self.encoder.send_eof()` succeeds. -/
  sendEofOk : Bool
  /-- `self.receive_and_write_video_packets()` succeeds. -/
  videoDrainOk : Bool
  /-- the session has an audio encoder and an audio stream. -/
  hasAudio : Bool
  /-- `audio_encoder.finish()` returns `Ok(packets)`. -/
  audioFinishOk : Bool
  /-- every drained audio packet's `write_interleaved` succeeds. -/
  audioWriteOk : Bool
  /-- `self.output_context.write_trailer()` succeeds. -/
  trailerOk : Bool
deriving DecidableEq, Repr

/-- Result of running `VP9Encoder::finish`: whether `write_trailer` was
reached, and whether the call returned `Ok`. -/
structure FinishResult where
  trailerAttempted : Bool
  ok : Bool
deriving DecidableEq, Repr

def VP9Encoder.finish (e : FinishEnv) : FinishResult :=
  if !e.sendEofOk then ⟨false, false⟩
  else if !e.videoDrainOk then ⟨false, false⟩
  else if e.hasAudio then
    if e.audioFinishOk then
      if !e.audioWriteOk then ⟨false, false⟩
      else ⟨true, e.trailerOk⟩
    else ⟨true, e.trailerOk⟩
  else ⟨true, e.trailerOk⟩

/-! ## The lazy construction in SorkinWriter::write_frame
(lib.rs lines 125-151) -/

inductive GodotError
  | OK
  | ERR_UNCONFIGURED
  | ERR_CANT_CREATE
  | ERR_FILE_CANT_WRITE
deriving DecidableEq, Repr

/-- The part of `SorkinWriter`'s state that the lazy-construction block
reads and writes: whether `self.encoder` (and with it
`self.conversion_context`) is `Some`, and whether `self.output_path` is
`Some`. -/
structure WriterState where
  encoderSome : Bool
  outputPathSome : Bool
deriving DecidableEq, Repr

/-- The construction block at the top of `write_frame`: when the encoder
is `None` and the output path is set, `VP9Encoder::new` and
`ConversionContext::new` are run (their joint success is the input
`ctorOk`); on failure the function returns `ERR_CANT_CREATE` leaving the
state unchanged.  Returns the new state, `some err` for an early return
(`none` = fall through to the encoding code), and whether construction
was attempted on this call. -/
def writeFrameInit (s : WriterState) (ctorOk : Bool) :
    WriterState × Option GodotError × Bool :=
  if !s.encoderSome then
    if s.outputPathSome then
      if ctorOk then ({ s with encoderSome := true }, none, true)
      else (s, some GodotError.ERR_CANT_CREATE, true)
    else (s, some GodotError.ERR_UNCONFIGURED, false)
  else (s, none, false)

/-! ## ConversionContext::new with GPU-resource accounting
(conversion.rs lines 44-162 and the Drop impl, lines 246-269)

Every `texture_create` / `sampler_create` / `shader_create_from_spirv` /
`compute_pipeline_create` / `uniform_set_create` call is modelled as the
allocation of a fresh RID in a `GpuState`; `free_rid` removes it.  The
constructor allocates, in source order: shader, pipeline, sampler, and
then - only in the supported-format arm - scratch, y, u, v, a textures
and the uniform set.  The unsupported-format arm returns the
`Unsupported Conversion` error with no `free_rid` call on the RIDs
already allocated. -/

inductive Pixel
  | YUV420P
  | YUVA420P
  | RGB24
deriving DecidableEq, Repr

inductive ImageFormat
  | RGBA8
deriving DecidableEq, Repr

inductive ConvError
  | Conversion (msg : String)
deriving DecidableEq, Repr

structure GpuState where
  nextRid : ℕ
  allocated : List ℕ
deriving DecidableEq, Repr

def GpuState.init : GpuState := ⟨0, []⟩

def allocRid (s : GpuState) : ℕ × GpuState :=
  (s.nextRid, ⟨s.nextRid + 1, s.nextRid :: s.allocated⟩)

def freeRid (s : GpuState) (r : ℕ) : GpuState :=
  ⟨s.nextRid, s.allocated.erase r⟩

/-- The match arms of `ConversionContext::new`: only `YUVA420P` and
`YUV420P` have a plane layout. -/
def supportedPixel : Pixel → Bool
  | Pixel.YUV420P => true
  | Pixel.YUVA420P => true
  | _ => false

structure ConversionContext where
  scratch : ℕ
  y : ℕ
  u : ℕ
  v : ℕ
  a : ℕ
  sampler : ℕ
  width : ℕ
  height : ℕ
  shader : ℕ
  uniforms : ℕ
  pipeline : ℕ
deriving DecidableEq, Repr

/-- `ConversionContext::new`.  `deviceOk` is whether
`create_local_rendering_device` returns a device, `compileOk` whether
`shader_compile_spirv_from_source` succeeds; both failures happen before
any RID is allocated. -/
def ConversionContext.new (deviceOk compileOk : Bool) (fromFmt : ImageFormat)
    (toPx : Pixel) (width height : ℕ) (s0 : GpuState) :
    Except ConvError ConversionContext × GpuState :=
  if !deviceOk then (Except.error (ConvError.Conversion "No render device"), s0)
  else if !compileOk then
    (Except.error (ConvError.Conversion "failed to compile source"), s0)
  else
    let (shader, s1) := allocRid s0
    let (pipeline, s2) := allocRid s1
    let (sampler, s3) := allocRid s2
    match toPx with
    | Pixel.YUV420P | Pixel.YUVA420P =>
      let (scratch, s4) := allocRid s3
      let (y, s5) := allocRid s4
      let (u, s6) := allocRid s5
      let (v, s7) := allocRid s6
      let (a, s8) := allocRid s7
      let (uniforms, s9) := allocRid s8
      (Except.ok
        { scratch := scratch, y := y, u := u, v := v, a := a,
          sampler := sampler, width := width, height := height,
          shader := shader, uniforms := uniforms, pipeline := pipeline },
       s9)
    | _ => (Except.error (ConvError.Conversion "Unsupported Conversion"), s3)

/-- `Drop for ConversionContext` (conversion.rs lines 246-269): frees
y, u, v, a, scratch, then uniforms, pipeline, sampler, shader. -/
def ConversionContext.drop (c : ConversionContext) (s : GpuState) : GpuState :=
  let s := freeRid s c.y
  let s := freeRid s c.u
  let s := freeRid s c.v
  let s := freeRid s c.a
  let s := freeRid s c.scratch
  let s := freeRid s c.uniforms
  let s := freeRid s c.pipeline
  let s := freeRid s c.sampler
  freeRid s c.shader

/-! ## Stream creation in VP9Encoder::new (lib.rs lines 353-379) and the
audio write path -/

inductive StreamKind
  | video
  | audio
deriving DecidableEq, Repr

/-- The condition guarding audio-encoder and audio-stream creation in
`VP9Encoder::new` (lib.rs line 364): `path.ends_with(".webm") &&
config.enable_audio`. -/
def audioStreamCreated (path : String) (config : EncoderConfig) : Bool :=
  path.endsWith ".webm" && config.enable_audio

/-- The streams added to the output container by `VP9Encoder::new`, in
order: always one video stream, then the audio stream exactly when
`audioStreamCreated`. -/
def vp9Streams (path : String) (config : EncoderConfig) : List StreamKind :=
  [StreamKind.video]
    ++ (if audioStreamCreated path config then [StreamKind.audio] else [])

/-- `VP9Encoder::write_audio_data` (lib.rs lines 401-427): the packets it
writes into the container.  When the session has no audio encoder or no
audio stream index the `if let` does not match and nothing is written
(the data is silently dropped). -/
def write_audio_data (audioEncoderSome audioStreamIndexSome : Bool)
    (encodedPackets : List ℕ) : List ℕ :=
  if audioEncoderSome && audioStreamIndexSome then encodedPackets else []

/-- The guard in `write_frame` (lib.rs line 173) under which a supplied
audio block is consumed at all: the block pointer is non-null and
`config.enable_audio` is set. -/
def audioBlockConsumed (blockNull : Bool) (config : EncoderConfig) : Bool :=
  !blockNull && config.enable_audio

/-! ## Supporting lemmas -/

lemma rustRound_mono {x y : ℚ} (h : x ≤ y) : rustRound x ≤ rustRound y := by
  unfold rustRound
  by_cases hx : 0 ≤ x
  · have hy : 0 ≤ y := le_trans hx h
    simp only [hx, hy, if_true]
    exact Int.floor_le_floor (by linarith)
  · by_cases hy : 0 ≤ y
    · simp only [hx, hy, if_true, if_false]
      have h1 : (0 : ℤ) ≤ ⌊y + 1 / 2⌋ := by
        apply Int.floor_nonneg.mpr; linarith
      have h2 : (0 : ℤ) ≤ ⌊-x + 1 / 2⌋ := by
        apply Int.floor_nonneg.mpr; push_neg at hx; linarith
      omega
    · simp only [hx, hy, if_false]
      have : ⌊-y + 1 / 2⌋ ≤ ⌊-x + 1 / 2⌋ := Int.floor_le_floor (by linarith)
      omega

lemma frame_to_pts_mono {i j fps tps : ℤ} (hfps : 0 < fps) (htps : 0 ≤ tps)
    (hij : i ≤ j) : frame_to_pts i fps tps ≤ frame_to_pts j fps tps := by
  apply rustRound_mono
  have hfq : (0 : ℚ) < (fps : ℚ) := by exact_mod_cast hfps
  have htq : (0 : ℚ) ≤ (tps : ℚ) := by exact_mod_cast htps
  have hq : (i : ℚ) ≤ (j : ℚ) := by exact_mod_cast hij
  have : (i : ℚ) / (fps : ℚ) ≤ (j : ℚ) / (fps : ℚ) :=
    (div_le_div_iff_of_pos_right hfq).mpr hq
  exact mul_le_mul_of_nonneg_right this htq

lemma drainLoop_spec (fsz : ℕ) (hfsz : 0 < fsz) :
    ∀ (fuel : ℕ) (buf : List ℚ), buf.length ≤ fuel →
      (drainLoop fsz fuel buf).1.map List.length
          = List.replicate (buf.length / fsz) fsz ∧
        (drainLoop fsz fuel buf).1.flatten ++ (drainLoop fsz fuel buf).2 = buf ∧
        (drainLoop fsz fuel buf).2.length = buf.length % fsz := by
  intro fuel
  induction fuel with
  | zero =>
    intro buf hb
    have : buf = [] := List.length_eq_zero.mp (Nat.le_zero.mp hb)
    subst this
    simp [drainLoop, Nat.zero_div, Nat.zero_mod]
  | succ fuel ih =>
    intro buf hb
    by_cases hle : fsz ≤ buf.length
    · have hdrop : (buf.drop fsz).length = buf.length - fsz := by
        simp [List.length_drop]
      have hfuel : (buf.drop fsz).length ≤ fuel := by
        rw [hdrop]; omega
      obtain ⟨h1, h2, h3⟩ := ih (buf.drop fsz) hfuel
      have hdiv : buf.length / fsz = (buf.length - fsz) / fsz + 1 :=
        Nat.div_eq_sub_div hfsz hle
      have hmod : buf.length % fsz = (buf.length - fsz) % fsz :=
        (Nat.mod_eq_sub_mod hle).symm ▸ rfl
      constructor
      · simp only [drainLoop, if_pos hle, List.map_cons, h1, hdrop]
        rw [hdiv, List.length_take, List.replicate_succ]
        congr 1
        omega
      constructor
      · simp only [drainLoop, if_pos hle, List.flatten_cons, List.append_assoc, h2]
        exact List.take_append_drop fsz buf
      · simp only [drainLoop, if_pos hle, h3, hdrop]
        rw [Nat.mod_eq_sub_mod hle]
    · push_neg at hle
      have hdiv : buf.length / fsz = 0 := Nat.div_eq_of_lt hle
      have hmod : buf.length % fsz = buf.length := Nat.mod_eq_of_lt hle
      constructor
      · simp [drainLoop, Nat.not_le.mpr hle, hdiv]
      constructor
      · simp [drainLoop, Nat.not_le.mpr hle]
      · simp [drainLoop, Nat.not_le.mpr hle, hmod]

lemma drainFrames_spec (fsz : ℕ) (hfsz : 0 < fsz) (buf : List ℚ) :
    (drainFrames fsz buf).1.map List.length
        = List.replicate (buf.length / fsz) fsz ∧
      (drainFrames fsz buf).1.flatten ++ (drainFrames fsz buf).2 = buf ∧
      (drainFrames fsz buf).2.length = buf.length % fsz :=
  drainLoop_spec fsz hfsz buf.length buf le_rfl

lemma framerFold_spec (fsz : ℕ) (hfsz : 0 < fsz) :
    ∀ (pushes : List (List ℚ)) (F : List (List ℚ)) (b : List ℚ),
      b.length < fsz →
      ((pushes.foldl (framerStep fsz) (F, b)).1.map List.length
          = F.map List.length
            ++ List.replicate
                ((b.length + (pushes.map List.length).sum) / fsz) fsz)
      ∧ ((pushes.foldl (framerStep fsz) (F, b)).1.flatten
            ++ (pushes.foldl (framerStep fsz) (F, b)).2
          = F.flatten ++ b ++ pushes.flatten)
      ∧ (pushes.foldl (framerStep fsz) (F, b)).2.length
          = (b.length + (pushes.map List.length).sum) % fsz := by
  intro pushes
  induction pushes with
  | nil =>
    intro F b hb
    refine ⟨?_, ?_, ?_⟩
    · simp [Nat.div_eq_of_lt hb]
    · simp
    · simp [Nat.mod_eq_of_lt hb]
  | cons p ps ih =>
    intro F b hb
    have hstep : framerStep fsz (F, b) p
        = (F ++ (drainFrames fsz (b ++ p)).1, (drainFrames fsz (b ++ p)).2) := rfl
    obtain ⟨d1, d2, d3⟩ := drainFrames_spec fsz hfsz (b ++ p)
    have hd2len : (drainFrames fsz (b ++ p)).2.length < fsz := by
      rw [d3]; exact Nat.mod_lt _ hfsz
    obtain ⟨i1, i2, i3⟩ := ih (F ++ (drainFrames fsz (b ++ p)).1)
      (drainFrames fsz (b ++ p)).2 hd2len
    have hm : (b ++ p).length = b.length + p.length := List.length_append b p
    have harith : ∀ s : ℕ,
        (b.length + p.length) / fsz + ((b.length + p.length) % fsz + s) / fsz
          = (b.length + p.length + s) / fsz := by
      intro s
      conv_rhs => rw [← Nat.div_add_mod (b.length + p.length) fsz]
      rw [Nat.add_assoc, Nat.mul_add_div hfsz]
    refine ⟨?_, ?_, ?_⟩
    · rw [List.foldl_cons, hstep, i1, List.map_append, d1, d3, hm,
        List.append_assoc, ← List.replicate_add, harith]
      simp only [List.map_cons, List.sum_cons]
      rw [← Nat.add_assoc]
    · rw [List.foldl_cons, hstep, i2, List.flatten_append, List.flatten_cons]
      simp only [List.append_assoc]
      rw [← List.append_assoc (drainFrames fsz (b ++ p)).1.flatten, d2]
      simp [List.append_assoc]
    · rw [List.foldl_cons, hstep, i3, d3, hm]
      simp only [List.map_cons, List.sum_cons]
      rw [Nat.mod_add_mod, ← Nat.add_assoc]

lemma writeEnd_pad (fsz : ℕ) (buf : List ℚ) (hfsz : 0 < fsz)
    (h0 : 0 < buf.length) (h1 : buf.length < fsz) :
    writeEndAudioFrames true fsz buf
      = [buf ++ List.replicate (fsz - buf.length) 0] := by
  have hne : buf.isEmpty = false := by
    cases buf with
    | nil => simp at h0
    | cons a l => rfl
  have hbuf2 : (buf ++ List.replicate (fsz - buf.length) (0 : ℚ)).length
      = fsz := by
    simp [List.length_append, List.length_replicate]
    omega
  unfold writeEndAudioFrames
  rw [hne]
  simp only [Bool.and_true, Bool.not_false, if_pos h1]
  obtain ⟨m1, m2, m3⟩ :=
    drainFrames_spec fsz hfsz (buf ++ List.replicate (fsz - buf.length) 0)
  rw [hbuf2, Nat.div_self hfsz, Nat.mod_self] at *
  set d := drainFrames fsz (buf ++ List.replicate (fsz - buf.length) 0) with hd
  have hrest : d.2 = [] := List.length_eq_zero.mp m3
  rw [hrest, List.append_nil] at m2
  match hfr : d.1 with
  | [] => rw [hfr] at m1; simp at m1
  | [f] =>
    rw [hfr] at m2
    simp only [List.flatten_cons, List.flatten_nil, List.append_nil] at m2
    rw [m2]
    simp
  | f :: g :: t => rw [hfr] at m1; simp [List.replicate_one] at m1

lemma bitLenAux_le (fuel : ℕ) :
    ∀ (m k : ℕ), m < 2 ^ k → k ≤ fuel → bitLenAux fuel m ≤ k := by
  induction fuel with
  | zero => intro m k _ _; simp [bitLenAux]
  | succ fuel ih =>
    intro m k hm hk
    by_cases hm0 : m = 0
    · simp [bitLenAux, hm0]
    · cases k with
      | zero =>
        simp at hm
        omega
      | succ k =>
        have hm2 : m / 2 < 2 ^ k := by
          rw [Nat.div_lt_iff_lt_mul (by norm_num : 0 < 2)]
          rw [pow_succ] at hm
          exact hm
        have := ih (m / 2) k hm2 (by omega)
        simp only [bitLenAux, if_neg hm0]
        omega

lemma roundTiesEven_le (m u : ℕ) (hu : 0 < u) :
    roundTiesEven m u ≤ (m / u + 1) * u := by
  unfold roundTiesEven
  have h1 : m / u * u ≤ (m / u + 1) * u := Nat.mul_le_mul_right u (by omega)
  simp only []
  split
  · exact h1
  · split
    · exact le_rfl
    · split
      · exact h1
      · exact le_rfl

lemma f32ofNat_le (m : ℕ) (hm : m < 2 ^ 31) : f32ofNat m ≤ 2 ^ 31 := by
  have hbl : bitLen m ≤ 31 := bitLenAux_le 64 m 31 hm (by norm_num)
  have hexp : f32UlpExp m ≤ 7 := by
    unfold f32UlpExp; omega
  set u := 2 ^ f32UlpExp m with hu
  have hu0 : 0 < u := Nat.pos_pow_of_pos _ (by norm_num)
  have hdvd : u ∣ 2 ^ 31 := pow_dvd_pow 2 (by omega)
  have h1 : f32ofNat m ≤ (m / u + 1) * u := roundTiesEven_le m u hu0
  have h2 : m / u < 2 ^ 31 / u := Nat.div_lt_div_of_lt_of_dvd hdvd hm
  calc f32ofNat m ≤ (m / u + 1) * u := h1
    _ ≤ (2 ^ 31 / u) * u := Nat.mul_le_mul_right u (by omega)
    _ = 2 ^ 31 := Nat.div_mul_cancel hdvd

lemma f32ofInt_I32_MAX : f32ofInt I32_MAX = 2 ^ 31 := by decide

lemma f32ofInt_abs_le (n : ℤ) (hlo : -(2 ^ 31) + 1 ≤ n) (hhi : n ≤ 2 ^ 31 - 1) :
    -(2 ^ 31) ≤ f32ofInt n ∧ f32ofInt n ≤ 2 ^ 31 := by
  unfold f32ofInt
  by_cases hn : 0 ≤ n
  · rw [if_pos hn]
    have h1 : n.toNat < 2 ^ 31 := by omega
    have h2 := f32ofNat_le n.toNat h1
    constructor
    · have : (0 : ℤ) ≤ (f32ofNat n.toNat : ℤ) := Int.natCast_nonneg _
      omega
    · exact_mod_cast h2
  · rw [if_neg hn]
    have h1 : (-n).toNat < 2 ^ 31 := by omega
    have h2 := f32ofNat_le (-n).toNat h1
    constructor
    · have : ((f32ofNat (-n).toNat : ℤ)) ≤ 2 ^ 31 := by exact_mod_cast h2
      omega
    · have : (0 : ℤ) ≤ (f32ofNat (-n).toNat : ℤ) := Int.natCast_nonneg _
      omega

/-! ## The claims -/

/-- C1: the claim states that `convert` dispatches `ceil(width/16)`
work-groups along x and `ceil(height/16)` along y, covering the full
image.  The code passes `self.width.div_ceil(16)` for BOTH axes: at
width 16, height 32 it dispatches (1, 1, 1) work-groups, the y-axis
count differs from `ceil(height/16) = 2`, and the 16-row work-group rows
cover only 16 of the 32 image rows. -/
theorem C1_dispatch_uses_width_for_y_axis :
    dispatchGroups 16 32 = (1, 1, 1) ∧
    (dispatchGroups 16 32).2.1 ≠ divCeil 32 16 ∧
    16 * (dispatchGroups 16 32).2.1 < 32 := by decide

/-- C2 counterexample: at width = height = 3 the chroma texture is
allocated at `3 / 2 = 1` per axis, not `ceil(3/2) = 2` as the claim
states. -/
theorem C2_counterexample_odd_dims :
    (conversionTexDims 3 3).u ≠ (divCeil 3 2, divCeil 3 2) := by decide

/-- C2 (amended): the luma and alpha textures are width×height; the two
chroma textures are `floor(width/2)` × `floor(height/2)` (truncating
`u32` division), which agrees with the claimed `ceil` exactly when both
dimensions are even. -/
theorem C2_plane_dims_floor (w h : ℕ) :
    (conversionTexDims w h).y = (w, h) ∧
    (conversionTexDims w h).a = (w, h) ∧
    (conversionTexDims w h).u = (w / 2, h / 2) ∧
    (conversionTexDims w h).v = (w / 2, h / 2) ∧
    ((conversionTexDims w h).u = (divCeil w 2, divCeil h 2)
      ↔ (w % 2 = 0 ∧ h % 2 = 0)) := by
  refine ⟨rfl, rfl, rfl, rfl, ?_⟩
  simp only [conversionTexDims, divCeil, Prod.mk.injEq]
  constructor
  · rintro ⟨hw, hh⟩
    constructor
    · by_contra hne
      rw [if_neg hne] at hw
      omega
    · by_contra hne
      rw [if_neg hne] at hh
      omega
  · rintro ⟨hw, hh⟩
    rw [if_pos hw, if_pos hh]
    omega

/-- C3 counterexample: when the video `send_eof` flush fails, `finish`
returns early through `?` and `write_trailer` is never reached, contrary
to the claim that the trailer write is attempted on every flush-error
path. -/
theorem C3_counterexample_video_flush_error :
    (VP9Encoder.finish
        { sendEofOk := false, videoDrainOk := true, hasAudio := true,
          audioFinishOk := true, audioWriteOk := true, trailerOk := true
        }).trailerAttempted = false := by decide

/-- C3 (amended): the trailer write is reached exactly when the video
flush (`send_eof` and the packet drain) succeeds and, when audio is
present, either the audio flush itself failed (that error is only
logged) or all its drained packets were written.  So an audio *flush*
error does not prevent the trailer write, but a video flush error does,
as does a failing write of a drained audio packet. -/
theorem C3_trailer_reached_iff (e : FinishEnv) :
    (VP9Encoder.finish e).trailerAttempted
      = (e.sendEofOk && e.videoDrainOk
          && (!e.hasAudio || !e.audioFinishOk || e.audioWriteOk)) := by
  rcases e with ⟨a, b, c, d, f, g⟩
  cases a <;> cases b <;> cases c <;> cases d <;> cases f <;> cases g <;> rfl

/-- C4 counterexample: starting from a session with an output path and
no encoder, a `write_frame` whose construction fails returns
`ERR_CANT_CREATE` and leaves the state unchanged, and the *next*
`write_frame` call attempts construction again - contradicting the
claim that no later call retries construction. -/
theorem C4_counterexample_retry :
    (writeFrameInit ⟨false, true⟩ false).2.1
        = some GodotError.ERR_CANT_CREATE ∧
    (writeFrameInit ⟨false, true⟩ false).1 = ⟨false, true⟩ ∧
    (writeFrameInit (writeFrameInit ⟨false, true⟩ false).1 false).2.2
        = true := by decide

/-- C4 (amended): a failed construction reports `ERR_CANT_CREATE` (as
the claim states) but leaves `self.encoder` unset, so construction of
the encoder and GPU context is re-attempted on every subsequent
`write_frame` call while the encoder is `None` and an output path is
set; the session is not permanently un-recordable. -/
theorem C4_construction_retried_while_encoder_none (s : WriterState)
    (ctorOk : Bool) :
    (writeFrameInit s false).1 = s ∧
    ((writeFrameInit s false).2.1
        = if !s.encoderSome && s.outputPathSome
          then some GodotError.ERR_CANT_CREATE
          else if !s.encoderSome then some GodotError.ERR_UNCONFIGURED
          else none) ∧
    ((writeFrameInit s ctorOk).2.2 = (!s.encoderSome && s.outputPathSome)) := by
  rcases s with ⟨e, p⟩
  cases e <;> cases p <;> cases ctorOk <;> exact ⟨rfl, rfl, rfl⟩

/-- C5: video packet PTS values (`frame_to_pts`, i.e. `round(frame_index
/ fps * ticks_per_second)`) are non-decreasing in the frame index, and
audio packet PTS values (`frame_count * frame_size`) are non-decreasing
in the frame count. -/
theorem C5_pts_monotone (i j fps tps : ℤ) (fi fj fsz : ℕ)
    (hfps : 0 < fps) (htps : 0 ≤ tps) (hij : i ≤ j) (hfij : fi ≤ fj) :
    frame_to_pts i fps tps ≤ frame_to_pts j fps tps ∧
    audioPts fi fsz ≤ audioPts fj fsz :=
  ⟨frame_to_pts_mono hfps htps hij, Nat.mul_le_mul_right fsz hfij⟩

/-- C5 witness: concrete instance at frame indices 3 ≤ 7, 30 fps,
30000-tick time base, audio frame size 960. -/
theorem C5_pts_monotone_witness :
    frame_to_pts 3 30 30000 ≤ frame_to_pts 7 30 30000 ∧
    audioPts 3 960 ≤ audioPts 7 960 :=
  C5_pts_monotone 3 7 30 30000 3 7 960 (by decide) (by decide) (by decide)
    (by decide)

/-- C6: over any sequence of audio pushes, the framing loop emits frames
whose lengths are all exactly `OPUS_FRAME_SIZE * STEREO_CHANNELS`
interleaved samples, whose count is `floor(N / OPUS_FRAME_SIZE)` where
`N` is the per-channel total `floor(total / STEREO_CHANNELS)`, whose
concatenation is a prefix of the pushed samples in original order, and
after which fewer than one full frame of samples remains buffered. -/
theorem C6_framer_emits_floor_frames (pushes : List (List ℚ)) :
    ((framerRun (OPUS_FRAME_SIZE * STEREO_CHANNELS) pushes).1.map List.length
        = List.replicate
            (((pushes.map List.length).sum / STEREO_CHANNELS)
              / OPUS_FRAME_SIZE)
            (OPUS_FRAME_SIZE * STEREO_CHANNELS)) ∧
    ((framerRun (OPUS_FRAME_SIZE * STEREO_CHANNELS) pushes).1.flatten
        ++ (framerRun (OPUS_FRAME_SIZE * STEREO_CHANNELS) pushes).2
        = pushes.flatten) ∧
    (framerRun (OPUS_FRAME_SIZE * STEREO_CHANNELS) pushes).2.length
        < OPUS_FRAME_SIZE * STEREO_CHANNELS := by
  have hfsz : 0 < OPUS_FRAME_SIZE * STEREO_CHANNELS := by decide
  obtain ⟨h1, h2, h3⟩ :=
    framerFold_spec (OPUS_FRAME_SIZE * STEREO_CHANNELS) hfsz pushes [] []
      (by simpa using hfsz)
  refine ⟨?_, ?_, ?_⟩
  · rw [framerRun, h1]
    simp only [List.map_nil, List.nil_append, List.length_nil, Nat.zero_add]
    rw [Nat.div_div_eq_div_mul,
      Nat.mul_comm STEREO_CHANNELS OPUS_FRAME_SIZE]
  · rw [framerRun, h2]
    simp
  · rw [framerRun, h3]
    simp only [List.length_nil, Nat.zero_add]
    exact Nat.mod_lt _ hfsz

/-- C7: at end of stream, a non-empty audio buffer holding fewer than
one full codec frame is zero-padded up to exactly one full frame, which
is the single frame encoded; an empty buffer produces no final frame. -/
theorem C7_final_frame_zero_padded (buf : List ℚ) (h0 : 0 < buf.length)
    (h1 : buf.length < OPUS_FRAME_SIZE * STEREO_CHANNELS) :
    writeEndAudioFrames true (OPUS_FRAME_SIZE * STEREO_CHANNELS) buf
        = [buf ++ List.replicate
            (OPUS_FRAME_SIZE * STEREO_CHANNELS - buf.length) 0] ∧
    (buf ++ List.replicate
        (OPUS_FRAME_SIZE * STEREO_CHANNELS - buf.length) (0 : ℚ)).length
        = OPUS_FRAME_SIZE * STEREO_CHANNELS ∧
    writeEndAudioFrames true (OPUS_FRAME_SIZE * STEREO_CHANNELS) [] = [] := by
  refine ⟨writeEnd_pad _ _ (by decide) h0 h1, ?_, rfl⟩
  simp [List.length_append]
  omega

/-- C7 witness: a single queued sample is padded with 1919 zeros into
one full 1920-sample frame. -/
theorem C7_final_frame_zero_padded_witness :
    writeEndAudioFrames true (OPUS_FRAME_SIZE * STEREO_CHANNELS) [1]
        = [[1] ++ List.replicate
            (OPUS_FRAME_SIZE * STEREO_CHANNELS - List.length [(1 : ℚ)]) 0] ∧
    ([(1 : ℚ)] ++ List.replicate
        (OPUS_FRAME_SIZE * STEREO_CHANNELS - List.length [(1 : ℚ)])
        (0 : ℚ)).length
        = OPUS_FRAME_SIZE * STEREO_CHANNELS ∧
    writeEndAudioFrames true (OPUS_FRAME_SIZE * STEREO_CHANNELS) [] = [] :=
  C7_final_frame_zero_padded [1] (by decide) (by decide)

/-- C8: the int32-to-float sample conversion maps `i32::MIN` to exactly
-1.0 and `i32::MAX` to exactly 1.0, and every converted sample lies in
[-1.0, 1.0] (other samples map to the exact `f32` value of `s /
i32::MAX as f32`, which `sampleToF32` embeds). -/
theorem C8_sample_conversion_range (s : ℤ) (hlo : I32_MIN ≤ s)
    (hhi : s ≤ I32_MAX) :
    sampleToF32 I32_MIN = -1 ∧
    sampleToF32 I32_MAX = 1 ∧
    -1 ≤ sampleToF32 s ∧ sampleToF32 s ≤ 1 := by
  have e1 : I32_MIN = -2147483648 := by decide
  have e2 : I32_MAX = 2147483647 := by decide
  refine ⟨by simp [sampleToF32], ?_, ?_, ?_⟩
  · rw [sampleToF32, if_neg (by decide), f32ofInt_I32_MAX]
    norm_num
  all_goals by_cases hmin : s = I32_MIN
  · subst hmin; rw [sampleToF32, if_pos rfl]
  · rw [e1] at hlo hmin
    rw [e2] at hhi
    obtain ⟨hb1, hb2⟩ := f32ofInt_abs_le s
      (by rw [show ((2 : ℤ) ^ 31) = 2147483648 by norm_num]; omega)
      (by rw [show ((2 : ℤ) ^ 31) = 2147483648 by norm_num]; omega)
    rw [sampleToF32, if_neg (by rw [e1]; omega), f32ofInt_I32_MAX]
    rw [le_div_iff₀ (by positivity)]
    have hc : ((-(2 ^ 31) : ℤ) : ℚ) ≤ ((f32ofInt s : ℤ) : ℚ) := by
      exact_mod_cast hb1
    push_cast at hc ⊢
    linarith
  · subst hmin; rw [sampleToF32, if_pos rfl]; norm_num
  · rw [e1] at hlo hmin
    rw [e2] at hhi
    obtain ⟨hb1, hb2⟩ := f32ofInt_abs_le s
      (by rw [show ((2 : ℤ) ^ 31) = 2147483648 by norm_num]; omega)
      (by rw [show ((2 : ℤ) ^ 31) = 2147483648 by norm_num]; omega)
    rw [sampleToF32, if_neg (by rw [e1]; omega), f32ofInt_I32_MAX]
    rw [div_le_one (by positivity)]
    exact_mod_cast hb2

/-- C8 witness: concrete instance at sample 12345. -/
theorem C8_sample_conversion_range_witness :
    sampleToF32 I32_MIN = -1 ∧
    sampleToF32 I32_MAX = 1 ∧
    -1 ≤ sampleToF32 12345 ∧ sampleToF32 12345 ≤ 1 :=
  C8_sample_conversion_range 12345 (by decide) (by decide)

/-- C9 counterexample: constructing with an unsupported target format
(RGB24) fails with the format error, but the GPU state still holds
allocated resources when the constructor returns - the shader, pipeline
and sampler created before the format check are never freed on this
path. -/
theorem C9_counterexample_resources_leak :
    ((ConversionContext.new true true ImageFormat.RGBA8 Pixel.RGB24 64 64
        GpuState.init).1
      = Except.error (ConvError.Conversion "Unsupported Conversion")) ∧
    (ConversionContext.new true true ImageFormat.RGBA8 Pixel.RGB24 64 64
        GpuState.init).2.allocated ≠ [] :=
  ⟨rfl, by decide⟩

/-- C9 (amended): requesting a target format with no plane layout does
fail with the `Unsupported Conversion` format error, but on that error
path the three GPU resources created before the format check (shader
RID 0, compute pipeline RID 1, sampler RID 2) remain allocated; no
textures or uniform set are created.  `Drop` (which would free them)
never runs because no `ConversionContext` value was constructed. -/
theorem C9_error_path_keeps_resources (w h : ℕ) (toPx : Pixel)
    (hto : supportedPixel toPx = false) :
    ((ConversionContext.new true true ImageFormat.RGBA8 toPx w h
        GpuState.init).1
      = Except.error (ConvError.Conversion "Unsupported Conversion")) ∧
    ((ConversionContext.new true true ImageFormat.RGBA8 toPx w h
        GpuState.init).2.allocated = [2, 1, 0]) := by
  cases toPx with
  | YUV420P => simp [supportedPixel] at hto
  | YUVA420P => simp [supportedPixel] at hto
  | RGB24 => exact ⟨rfl, rfl⟩

/-- C9 witness: concrete instance at RGB24, 64×64. -/
theorem C9_error_path_keeps_resources_witness :
    ((ConversionContext.new true true ImageFormat.RGBA8 Pixel.RGB24 64 64
        GpuState.init).1
      = Except.error (ConvError.Conversion "Unsupported Conversion")) ∧
    ((ConversionContext.new true true ImageFormat.RGBA8 Pixel.RGB24 64 64
        GpuState.init).2.allocated = [2, 1, 0]) :=
  C9_error_path_keeps_resources 64 64 Pixel.RGB24 rfl

/-- C10: an audio encoder and audio container stream are created if and
only if the output path ends with ".webm" and `enable_audio` is set; in
every other case the container holds exactly the one video stream, and
audio data reaching `write_audio_data` with no audio encoder writes no
packets; a null block or `enable_audio = false` prevents the block from
being consumed at all. -/
theorem C10_audio_stream_iff (path : String) (config : EncoderConfig)
    (packets : List ℕ) (blockNull : Bool) :
    (audioStreamCreated path config = true
      ↔ (path.endsWith ".webm" = true ∧ config.enable_audio = true)) ∧
    ((vp9Streams path config).length
      = if audioStreamCreated path config then 2 else 1) ∧
    StreamKind.video ∈ vp9Streams path config ∧
    (StreamKind.audio ∈ vp9Streams path config
      ↔ audioStreamCreated path config = true) ∧
    write_audio_data false blockNull packets = [] ∧
    (config.enable_audio = false → audioBlockConsumed blockNull config = false) := by
  refine ⟨?_, ?_, ?_, ?_, ?_, ?_⟩
  · simp [audioStreamCreated]
  · by_cases hb : audioStreamCreated path config = true
    · simp [vp9Streams, hb]
    · simp [vp9Streams, hb]
  · simp [vp9Streams]
  · by_cases hb : audioStreamCreated path config = true
    · simp [vp9Streams, hb]
    · simp [vp9Streams, hb]
  · simp [write_audio_data]
  · intro h
    simp [audioBlockConsumed, h]

end Sorkin

